/-
Verification of the django-xrechnung invoice application.

Shallow embedding of the data model and operations of the repository:
the invoice and line-item records (models.py), the save-time derivation
of net_amount and line_total, the uniqueness constraints declared on the
store, the list-view filtering (views.py), the JSON detail projection,
the XML export, the admin readonly-field logic (admin.py) and the
configuration resolution (config.py).

Decimal field values are embedded as rationals (decimal arithmetic is
exact, which Rat models faithfully); nullable fields are Option;
calendar dates are a year/month/day record ordered by their numeric key.
-/
import Mathlib

/-- A calendar date, as stored in a DateField. -/
structure Date where
  year : Nat
  month : Nat
  day : Nat
deriving DecidableEq

/-- Left-pad the decimal rendering of a natural number with zeros to width w. -/
def natPad (w : Nat) (n : Nat) : String :=
  let s := toString n
  String.mk (List.replicate (w - s.length) '0') ++ s

/-- ISO-8601 rendering of a date, as Python date.isoformat and str(date) produce. -/
def Date.isoformat (d : Date) : String :=
  natPad 4 d.year ++ "-" ++ natPad 2 d.month ++ "-" ++ natPad 2 d.day

/-- Numeric key giving the chronological order of well-formed dates. -/
def Date.key (d : Date) : Nat :=
  d.year * 10000 + d.month * 100 + d.day

/-- Decimal rendering of a rational at a fixed number of decimal places,
as Python str applied to a quantized Decimal produces (for example "100.00"). -/
def decStr (places : Nat) (q : Rat) : String :=
  let scaled : Rat := q * ((10 ^ places : Nat) : Rat)
  let c : Int := scaled.num / (scaled.den : Int)
  let sgn := if c < 0 then "-" else ""
  let a := c.natAbs
  sgn ++ toString (a / 10 ^ places) ++ "." ++ natPad places (a % 10 ^ places)

/-- Python str applied to a nullable Decimal field: str(None) is the literal
string "None", otherwise the decimal rendering. -/
def pyStrOpt (places : Nat) : Option Rat → String
  | none => "None"
  | some q => decStr places q

/-- The XRechnungInvoice model of models.py. Required decimal fields are Rat,
nullable ones Option Rat; created_at is an abstract timestamp used for ordering. -/
structure XRechnungInvoice where
  id : Nat
  invoice_number : String
  invoice_date : Date
  due_date : Option Date
  supplier_name : String
  supplier_tax_id : String
  buyer_name : String
  buyer_tax_id : String
  total_amount : Rat
  tax_amount : Rat
  net_amount : Option Rat
  currency : String
  xml_content : String
  created_at : Nat
deriving DecidableEq

/-- The XRechnungLineItem model of models.py; invoice is the owning
invoice's primary key. -/
structure XRechnungLineItem where
  invoice : Nat
  position : Nat
  description : String
  quantity : Rat
  unit_price : Rat
  line_total : Option Rat
  tax_rate : Rat
deriving DecidableEq

/-- The overridden XRechnungInvoice.save of models.py: when net_amount is None
and total_amount and tax_amount are both truthy (a Decimal is truthy iff
nonzero), set net_amount to total_amount - tax_amount, then persist. -/
def XRechnungInvoice.save (i : XRechnungInvoice) : XRechnungInvoice :=
  if i.net_amount = none ∧ i.total_amount ≠ 0 ∧ i.tax_amount ≠ 0 then
    { i with net_amount := some (i.total_amount - i.tax_amount) }
  else
    i

/-- The overridden XRechnungLineItem.save of models.py: when line_total is None
and quantity and unit_price are both truthy, set line_total to
quantity * unit_price, then persist. -/
def XRechnungLineItem.save (it : XRechnungLineItem) : XRechnungLineItem :=
  if it.line_total = none ∧ it.quantity ≠ 0 ∧ it.unit_price ≠ 0 then
    { it with line_total := some (it.quantity * it.unit_price) }
  else
    it

/-- The store-level INSERT for invoices, enforcing the unique=True constraint
declared on invoice_number in models.py: the row is rejected with an integrity
error at write time when another row already carries the same invoice_number.
No application-level pre-check exists; the check is the store's. -/
def insertInvoiceRow (db : List XRechnungInvoice) (i : XRechnungInvoice) :
    Except String (List XRechnungInvoice) :=
  if db.any (fun k => k.invoice_number == i.invoice_number) then
    Except.error "IntegrityError: UNIQUE constraint failed: invoice_number"
  else
    Except.ok (db ++ [i])

/-- objects.create for invoices: run the model save (derivation) and hand the
row to the store, which enforces the uniqueness constraint. -/
def XRechnungInvoice.create (db : List XRechnungInvoice) (i : XRechnungInvoice) :
    Except String (List XRechnungInvoice) :=
  insertInvoiceRow db (XRechnungInvoice.save i)

/-- The store-level INSERT for line items, enforcing the
unique_together = (invoice, position) constraint of models.py Meta. -/
def insertLineItemRow (items : List XRechnungLineItem) (it : XRechnungLineItem) :
    Except String (List XRechnungLineItem) :=
  if items.any (fun k => k.invoice == it.invoice && k.position == it.position) then
    Except.error "IntegrityError: UNIQUE constraint failed: invoice, position"
  else
    Except.ok (items ++ [it])

/-- objects.create for line items: model save then store insert. -/
def XRechnungLineItem.create (items : List XRechnungLineItem) (it : XRechnungLineItem) :
    Except String (List XRechnungLineItem) :=
  insertLineItemRow items (XRechnungLineItem.save it)

namespace XRechnungInvoiceAdmin

/-- The readonly_fields list of XRechnungInvoiceAdmin in admin.py. -/
def readonly_fields : List String :=
  ["created_at", "updated_at", "net_amount"]

/-- get_readonly_fields of admin.py: when an existing object is being edited
(obj is not None, here objPresent), invoice_number is appended to the
readonly list; on the add form it is editable. -/
def get_readonly_fields (objPresent : Bool) : List String :=
  if objPresent then readonly_fields ++ ["invoice_number"] else readonly_fields

end XRechnungInvoiceAdmin

/-- The two override sources merged over the built-in defaults by
XRechnungConfig in config.py, restricted to the PAGINATION_SIZE key: the
DJANGO_XRECHNUNG Django setting and the tool.django-xrechnung table of
pyproject.toml; none means the source does not define the key. -/
structure ConfigSources where
  djangoSettings : Option Nat
  pyprojectToml : Option Nat
deriving DecidableEq

namespace XRechnungConfig

/-- The PAGINATION_SIZE entry of DEFAULT_CONFIG in config.py. -/
def DEFAULT_PAGINATION_SIZE : Nat := 20

/-- The pagination_size property of config.py: dict.update applies the Django
settings override and then the pyproject override, so a later present source
wins, falling back to the default of 20. -/
def pagination_size (s : ConfigSources) : Nat :=
  match s.pyprojectToml with
  | some v => v
  | none =>
    match s.djangoSettings with
    | some v => v
    | none => DEFAULT_PAGINATION_SIZE

end XRechnungConfig

namespace XRechnungInvoiceListView

/-- The paginate_by class attribute of XRechnungInvoiceListView in views.py:
the literal constant 20, taking no configuration input. -/
def paginate_by : Nat := 20

end XRechnungInvoiceListView

/-- Boolean sublist-containment check on character lists: does the needle
occur contiguously in the haystack. -/
def isSubChunk (needle : List Char) : List Char → Bool
  | [] => needle.isEmpty
  | c :: t => needle.isPrefixOf (c :: t) || isSubChunk needle t

/-- ASCII-style lowercasing of a string, character by character. -/
def lowerStr (s : String) : String :=
  String.mk (s.data.map Char.toLower)

/-- The icontains lookup of the Django ORM: case-insensitive substring match. -/
def icontainsB (hay needle : String) : Bool :=
  isSubChunk (lowerStr needle).data (lowerStr hay).data

/-- Is the first date less than or equal to the second (chronological order). -/
def dateLeB (a b : Date) : Bool :=
  decide (a.key ≤ b.key)

/-- The default retrieval order declared in XRechnungInvoice.Meta.ordering,
namely descending invoice_date with descending created_at as tie-break:
a precedes b when a's date is later, or the dates agree and a was created
no earlier. -/
def invoiceOrder (a b : XRechnungInvoice) : Prop :=
  b.invoice_date.key < a.invoice_date.key ∨
    (b.invoice_date.key = a.invoice_date.key ∧ b.created_at ≤ a.created_at)

instance : DecidableRel invoiceOrder := fun a b => by
  unfold invoiceOrder
  infer_instance

instance : IsTotal XRechnungInvoice invoiceOrder := by
  constructor
  intro a b
  unfold invoiceOrder
  omega

instance : IsTrans XRechnungInvoice invoiceOrder := by
  constructor
  intro a b c hab hbc
  unfold invoiceOrder at hab hbc ⊢
  omega

namespace XRechnungInvoiceListView

/-- get_queryset of XRechnungInvoiceListView in views.py: start from the
default manager queryset (which carries the Meta ordering), then narrow by
the supplier icontains filter when the supplier parameter is truthy
(present and non-empty), and by inclusive invoice_date bounds when the
start_date and end_date parameters are present. -/
def get_queryset (db : List XRechnungInvoice) (supplier : Option String)
    (start_date : Option Date) (end_date : Option Date) : List XRechnungInvoice :=
  let queryset := List.insertionSort invoiceOrder db
  let queryset := match supplier with
    | some s => if s ≠ "" then queryset.filter (fun i => icontainsB i.supplier_name s)
                else queryset
    | none => queryset
  let queryset := match start_date with
    | some d => queryset.filter (fun i => dateLeB d i.invoice_date)
    | none => queryset
  let queryset := match end_date with
    | some d => queryset.filter (fun i => dateLeB i.invoice_date d)
    | none => queryset
  queryset

end XRechnungInvoiceListView

/-- Written from the specification's wording for the query/filter layer:
an invoice matches when its supplier name contains the supplier string
case-insensitively and its invoice date lies within the inclusive
[start_date, end_date] bounds, an absent parameter imposing no constraint
on its dimension. -/
def specInvoiceMatch (supplier : Option String) (start_date end_date : Option Date)
    (i : XRechnungInvoice) : Bool :=
  (match supplier with
    | none => true
    | some s => icontainsB i.supplier_name s) &&
  (match start_date with
    | none => true
    | some d => dateLeB d i.invoice_date) &&
  (match end_date with
    | none => true
    | some d => dateLeB i.invoice_date d)

/-- JSON values, as produced by the API views through JsonResponse. -/
inductive JsonValue where
  | null : JsonValue
  | str : String → JsonValue
  | num : Int → JsonValue
  | arr : List JsonValue → JsonValue
  | obj : List (String × JsonValue) → JsonValue
deriving BEq

/-- Look a key up in a JSON object. -/
def JsonValue.getField : JsonValue → String → Option JsonValue
  | .obj fields, k => (fields.find? (fun kv => kv.1 == k)).map (fun kv => kv.2)
  | _, _ => none

namespace XRechnungInvoiceApiView

/-- The per-line-item dictionary built inside invoice_detail_api of views.py.
Every decimal field goes through Python str, so a None line_total becomes
the literal string "None". -/
def lineItemJson (it : XRechnungLineItem) : JsonValue :=
  .obj [
    ("position", .num (it.position : Int)),
    ("description", .str it.description),
    ("quantity", .str (decStr 3 it.quantity)),
    ("unit_price", .str (decStr 2 it.unit_price)),
    ("line_total", .str (pyStrOpt 2 it.line_total)),
    ("tax_rate", .str (decStr 2 it.tax_rate))]

/-- invoice_detail_api of views.py: the JSON detail projection of one invoice
together with its line items (retrieved in the Meta order, ascending
position). due_date uses a conditional expression and maps None to JSON
null; net_amount is passed through str unconditionally, so None becomes the
string "None". -/
def invoice_detail_api (i : XRechnungInvoice) (items : List XRechnungLineItem) :
    JsonValue :=
  .obj [
    ("id", .num (i.id : Int)),
    ("invoice_number", .str i.invoice_number),
    ("invoice_date", .str i.invoice_date.isoformat),
    ("due_date", match i.due_date with
      | some d => .str d.isoformat
      | none => .null),
    ("supplier_name", .str i.supplier_name),
    ("supplier_tax_id", .str i.supplier_tax_id),
    ("buyer_name", .str i.buyer_name),
    ("buyer_tax_id", .str i.buyer_tax_id),
    ("total_amount", .str (decStr 2 i.total_amount)),
    ("tax_amount", .str (decStr 2 i.tax_amount)),
    ("net_amount", .str (pyStrOpt 2 i.net_amount)),
    ("currency", .str i.currency),
    ("line_items", .arr
      ((List.insertionSort (fun a b => a.position ≤ b.position) items).map lineItemJson))]

end XRechnungInvoiceApiView

/-- An HTTP response as built by invoice_xml_export: body, content type and
the Content-Disposition header. -/
structure HttpResponseModel where
  body : String
  content_type : String
  content_disposition : String
deriving BEq

/-- The Content-Disposition header value both branches of invoice_xml_export
attach, naming the suggested file invoice_NUMBER.xml. -/
def xmlContentDisposition (invoiceNumber : String) : String :=
  "attachment; filename=\"invoice_" ++ invoiceNumber ++ ".xml\""

/-- The f-string template of the else branch of invoice_xml_export in
views.py, interpolating the model fields as raw text with no escaping;
the date renders through str (isoformat) and the total through str of the
Decimal. -/
def generateBasicXml (i : XRechnungInvoice) : String :=
  "<?xml version=\"1.0\" encoding=\"UTF-8\"?>\n<Invoice>\n    <InvoiceNumber>"
    ++ i.invoice_number
    ++ "</InvoiceNumber>\n    <InvoiceDate>"
    ++ i.invoice_date.isoformat
    ++ "</InvoiceDate>\n    <Supplier>\n        <Name>"
    ++ i.supplier_name
    ++ "</Name>\n        <TaxID>"
    ++ i.supplier_tax_id
    ++ "</TaxID>\n    </Supplier>\n    <Buyer>\n        <Name>"
    ++ i.buyer_name
    ++ "</Name>\n        <TaxID>"
    ++ i.buyer_tax_id
    ++ "</TaxID>\n    </Buyer>\n    <TotalAmount currency=\""
    ++ i.currency
    ++ "\">"
    ++ decStr 2 i.total_amount
    ++ "</TotalAmount>\n</Invoice>"

namespace XRechnungInvoiceApiView

/-- invoice_xml_export of views.py: when the stored xml_content is truthy
(non-empty) it is returned verbatim as the body; otherwise the basic XML is
generated. Both branches use content type application/xml and the same
attachment filename. -/
def invoice_xml_export (i : XRechnungInvoice) : HttpResponseModel :=
  if i.xml_content ≠ "" then
    { body := i.xml_content,
      content_type := "application/xml",
      content_disposition := xmlContentDisposition i.invoice_number }
  else
    { body := generateBasicXml i,
      content_type := "application/xml",
      content_disposition := xmlContentDisposition i.invoice_number }

end XRechnungInvoiceApiView

/-- The string sub occurs contiguously in s. -/
def containsSub (s sub : String) : Prop :=
  ∃ pre post, s = pre ++ (sub ++ post)

/-- Invoice INV-2024-002 of the concrete scenario: total 119.00, tax 19.00,
net omitted. -/
def invC1 : XRechnungInvoice :=
  { id := 1, invoice_number := "INV-2024-002", invoice_date := ⟨2024, 1, 15⟩,
    due_date := none, supplier_name := "Test Supplier", supplier_tax_id := "",
    buyer_name := "Test Buyer", buyer_tax_id := "", total_amount := 119,
    tax_amount := 19, net_amount := none, currency := "EUR", xml_content := "",
    created_at := 0 }

/-- C1: persisting an Invoice whose net_amount is unset while total_amount and
tax_amount are both truthy (nonzero) stores net_amount = total_amount -
tax_amount, exactly. -/
theorem c1_net_amount_derived (i : XRechnungInvoice)
    (h1 : i.net_amount = none) (h2 : i.total_amount ≠ 0) (h3 : i.tax_amount ≠ 0) :
    (XRechnungInvoice.save i).net_amount = some (i.total_amount - i.tax_amount) := by
  unfold XRechnungInvoice.save
  rw [if_pos ⟨h1, h2, h3⟩]

/-- C1 witness: the concrete scenario Invoice(number INV-2024-002, total
119.00, tax 19.00, net omitted) persists net_amount 100.00. -/
theorem c1_net_amount_derived_witness :
    invC1.net_amount = none ∧ invC1.invoice_number = "INV-2024-002" ∧
      (XRechnungInvoice.save invC1).net_amount = some 100 := by
  refine ⟨rfl, rfl, ?_⟩
  have h := c1_net_amount_derived invC1 rfl (by norm_num [invC1]) (by norm_num [invC1])
  rw [h]
  norm_num [invC1]

/-- An invoice with the default tax_amount of zero and net_amount omitted. -/
def invC2 : XRechnungInvoice :=
  { id := 2, invoice_number := "INV-2024-010", invoice_date := ⟨2024, 2, 1⟩,
    due_date := none, supplier_name := "Test Supplier", supplier_tax_id := "",
    buyer_name := "Test Buyer", buyer_tax_id := "", total_amount := 119,
    tax_amount := 0, net_amount := none, currency := "EUR", xml_content := "",
    created_at := 0 }

/-- C2 counterexample: with tax_amount equal to its default of zero the save
derivation is skipped, so the persisted net_amount stays null instead of
becoming total_amount - tax_amount = 119.00. -/
theorem c2_counterexample_zero_tax :
    invC2.net_amount = none ∧ invC2.tax_amount = 0 ∧
      (XRechnungInvoice.save invC2).net_amount ≠
        some (invC2.total_amount - invC2.tax_amount) := by
  refine ⟨rfl, rfl, ?_⟩
  have hc : ¬(invC2.net_amount = none ∧ invC2.total_amount ≠ 0 ∧ invC2.tax_amount ≠ 0) := by
    simp [invC2]
  unfold XRechnungInvoice.save
  rw [if_neg hc]
  simp [invC2]

/-- C2 amended: for an Invoice persisted with net_amount omitted, the stored
net_amount is total_amount - tax_amount exactly when both total_amount and
tax_amount are nonzero, and remains null otherwise (in particular when
tax_amount keeps its default of zero). -/
theorem c2_net_amount_characterization (i : XRechnungInvoice)
    (h : i.net_amount = none) :
    (XRechnungInvoice.save i).net_amount =
      if i.total_amount ≠ 0 ∧ i.tax_amount ≠ 0 then
        some (i.total_amount - i.tax_amount)
      else none := by
  unfold XRechnungInvoice.save
  by_cases hc : i.total_amount ≠ 0 ∧ i.tax_amount ≠ 0
  · rw [if_pos ⟨h, hc⟩, if_pos hc]
  · rw [if_neg (by tauto), if_neg hc]
    exact h

/-- C2 witness: at the zero-tax invoice the characterization evaluates to a
null persisted net_amount. -/
theorem c2_net_amount_characterization_witness :
    invC2.net_amount = none ∧ (XRechnungInvoice.save invC2).net_amount = none := by
  refine ⟨rfl, ?_⟩
  have h := c2_net_amount_characterization invC2 rfl
  rw [h, if_neg]
  simp [invC2]

/-- Line item of the concrete scenario: quantity 3.0, unit price 25.00,
line_total omitted. -/
def itemC3 : XRechnungLineItem :=
  { invoice := 1, position := 1, description := "Test Product", quantity := 3,
    unit_price := 25, line_total := none, tax_rate := 19 }

/-- C3: persisting a LineItem whose line_total is unset while quantity and
unit_price are both truthy (nonzero) stores line_total = quantity *
unit_price, exactly. -/
theorem c3_line_total_derived (it : XRechnungLineItem)
    (h1 : it.line_total = none) (h2 : it.quantity ≠ 0) (h3 : it.unit_price ≠ 0) :
    (XRechnungLineItem.save it).line_total = some (it.quantity * it.unit_price) := by
  unfold XRechnungLineItem.save
  rw [if_pos ⟨h1, h2, h3⟩]

/-- C3 witness: the concrete scenario LineItem(quantity 3.0, unit price 25.00,
line_total omitted) persists line_total 75.00. -/
theorem c3_line_total_derived_witness :
    itemC3.line_total = none ∧
      (XRechnungLineItem.save itemC3).line_total = some 75 := by
  refine ⟨rfl, ?_⟩
  have h := c3_line_total_derived itemC3 rfl (by norm_num [itemC3]) (by norm_num [itemC3])
  rw [h]
  norm_num [itemC3]

/-- An invoice carrying an explicitly supplied net_amount of 5.00 that is
inconsistent with total 119.00 and tax 19.00. -/
def invC4 : XRechnungInvoice :=
  { id := 4, invoice_number := "INV-2024-004", invoice_date := ⟨2024, 3, 1⟩,
    due_date := none, supplier_name := "Test Supplier", supplier_tax_id := "",
    buyer_name := "Test Buyer", buyer_tax_id := "", total_amount := 119,
    tax_amount := 19, net_amount := some 5, currency := "EUR", xml_content := "",
    created_at := 0 }

/-- C4: a save invoked on an Invoice whose net_amount is non-null leaves
net_amount untouched, even when it disagrees with total_amount -
tax_amount; it is only ever recomputed after being cleared to null. -/
theorem c4_net_amount_not_recomputed (i : XRechnungInvoice)
    (h : i.net_amount ≠ none) :
    (XRechnungInvoice.save i).net_amount = i.net_amount := by
  unfold XRechnungInvoice.save
  rw [if_neg (by tauto)]

/-- C4 witness: saving an invoice whose stored net_amount 5.00 disagrees with
total - tax = 100.00 keeps net_amount at 5.00. -/
theorem c4_net_amount_not_recomputed_witness :
    invC4.net_amount = some 5 ∧ invC4.total_amount - invC4.tax_amount = 100 ∧
      (XRechnungInvoice.save invC4).net_amount = some 5 := by
  refine ⟨rfl, by norm_num [invC4], ?_⟩
  have h := c4_net_amount_not_recomputed invC4 (by simp [invC4])
  rw [h]
  rfl

/-- The invoice save derivation never touches invoice_number. -/
theorem save_invoice_number (i : XRechnungInvoice) :
    (XRechnungInvoice.save i).invoice_number = i.invoice_number := by
  unfold XRechnungInvoice.save
  split <;> rfl

/-- The line-item save derivation never touches the owning invoice key. -/
theorem save_item_invoice (it : XRechnungLineItem) :
    (XRechnungLineItem.save it).invoice = it.invoice := by
  unfold XRechnungLineItem.save
  split <;> rfl

/-- The line-item save derivation never touches the position. -/
theorem save_item_position (it : XRechnungLineItem) :
    (XRechnungLineItem.save it).position = it.position := by
  unfold XRechnungLineItem.save
  split <;> rfl

/-- C6: creating an Invoice whose invoice_number collides with a stored row
fails with an integrity error from the store, and creating a LineItem whose
(invoice, position) pair collides with a stored row likewise fails; the
application save logic performs no pre-check (it does not even see the
store), the store's uniqueness constraints reject the write. -/
theorem c6_integrity_errors (db : List XRechnungInvoice) (i j : XRechnungInvoice)
    (items : List XRechnungLineItem) (a b : XRechnungLineItem)
    (hi : i ∈ db) (hnum : j.invoice_number = i.invoice_number)
    (ha : a ∈ items) (hinv : b.invoice = a.invoice) (hpos : b.position = a.position) :
    (∃ e, XRechnungInvoice.create db j = Except.error e) ∧
      (∃ e, XRechnungLineItem.create items b = Except.error e) := by
  constructor
  · refine ⟨"IntegrityError: UNIQUE constraint failed: invoice_number", ?_⟩
    unfold XRechnungInvoice.create insertInvoiceRow
    rw [if_pos]
    rw [List.any_eq_true]
    exact ⟨i, hi, by simp [save_invoice_number, hnum]⟩
  · refine ⟨"IntegrityError: UNIQUE constraint failed: invoice, position", ?_⟩
    unfold XRechnungLineItem.create insertLineItemRow
    rw [if_pos]
    rw [List.any_eq_true]
    exact ⟨a, ha, by simp [save_item_invoice, save_item_position, hinv, hpos]⟩

/-- A stored invoice used by the duplicate-creation scenario. -/
def invC6 : XRechnungInvoice :=
  { id := 6, invoice_number := "INV-2024-004", invoice_date := ⟨2024, 4, 1⟩,
    due_date := none, supplier_name := "Test Supplier 1", supplier_tax_id := "",
    buyer_name := "Test Buyer 1", buyer_tax_id := "", total_amount := 100,
    tax_amount := 0, net_amount := none, currency := "EUR", xml_content := "",
    created_at := 0 }

/-- A second invoice reusing the stored invoice_number. -/
def invC6dup : XRechnungInvoice :=
  { id := 7, invoice_number := "INV-2024-004", invoice_date := ⟨2024, 4, 2⟩,
    due_date := none, supplier_name := "Test Supplier 2", supplier_tax_id := "",
    buyer_name := "Test Buyer 2", buyer_tax_id := "", total_amount := 200,
    tax_amount := 0, net_amount := none, currency := "EUR", xml_content := "",
    created_at := 1 }

/-- A stored line item used by the duplicate-position scenario. -/
def itemC6 : XRechnungLineItem :=
  { invoice := 6, position := 1, description := "Test Product 1", quantity := 1,
    unit_price := 50, line_total := some 50, tax_rate := 19 }

/-- A second line item under the same invoice with the same position. -/
def itemC6dup : XRechnungLineItem :=
  { invoice := 6, position := 1, description := "Test Product 2", quantity := 1,
    unit_price := 60, line_total := some 60, tax_rate := 19 }

/-- C6 witness: the second create with a duplicate invoice_number, and the
second line-item create with a duplicate (invoice, position), both fail. -/
theorem c6_integrity_errors_witness :
    (∃ e, XRechnungInvoice.create [invC6] invC6dup = Except.error e) ∧
      (∃ e, XRechnungLineItem.create [itemC6] itemC6dup = Except.error e) :=
  c6_integrity_errors [invC6] invC6 invC6dup [itemC6] itemC6 itemC6dup
    (by simp) rfl (by simp) rfl rfl

/-- C5: the XML export returns the stored xml_content verbatim with content
type application/xml and the attachment filename invoice_NUMBER.xml whenever
xml_content is non-empty; otherwise it synthesizes an XML body that carries
the invoice number, the invoice date, supplier name and tax id, buyer name
and tax id, and the total amount inside a TotalAmount element with a
currency attribute, every field interpolated verbatim with no escaping. -/
theorem c5_xml_export (i : XRechnungInvoice) :
    (i.xml_content ≠ "" →
      XRechnungInvoiceApiView.invoice_xml_export i =
        { body := i.xml_content, content_type := "application/xml",
          content_disposition := xmlContentDisposition i.invoice_number }) ∧
    (i.xml_content = "" →
      (XRechnungInvoiceApiView.invoice_xml_export i).content_type = "application/xml" ∧
      (XRechnungInvoiceApiView.invoice_xml_export i).content_disposition =
        xmlContentDisposition i.invoice_number ∧
      containsSub (XRechnungInvoiceApiView.invoice_xml_export i).body i.invoice_number ∧
      containsSub (XRechnungInvoiceApiView.invoice_xml_export i).body
        i.invoice_date.isoformat ∧
      containsSub (XRechnungInvoiceApiView.invoice_xml_export i).body i.supplier_name ∧
      containsSub (XRechnungInvoiceApiView.invoice_xml_export i).body i.supplier_tax_id ∧
      containsSub (XRechnungInvoiceApiView.invoice_xml_export i).body i.buyer_name ∧
      containsSub (XRechnungInvoiceApiView.invoice_xml_export i).body i.buyer_tax_id ∧
      containsSub (XRechnungInvoiceApiView.invoice_xml_export i).body
        ("<TotalAmount currency=\"" ++ i.currency ++ "\">" ++ decStr 2 i.total_amount
          ++ "</TotalAmount>")) := by
  constructor
  · intro h
    unfold XRechnungInvoiceApiView.invoice_xml_export
    rw [if_pos h]
  · intro h
    have hb : XRechnungInvoiceApiView.invoice_xml_export i =
        { body := generateBasicXml i, content_type := "application/xml",
          content_disposition := xmlContentDisposition i.invoice_number } := by
      unfold XRechnungInvoiceApiView.invoice_xml_export
      rw [if_neg (by simp [h])]
    rw [hb]
    refine ⟨rfl, rfl, ?_, ?_, ?_, ?_, ?_, ?_, ?_⟩
    · refine ⟨"<?xml version=\"1.0\" encoding=\"UTF-8\"?>\n<Invoice>\n    <InvoiceNumber>",
        "</InvoiceNumber>\n    <InvoiceDate>" ++ i.invoice_date.isoformat
          ++ "</InvoiceDate>\n    <Supplier>\n        <Name>" ++ i.supplier_name
          ++ "</Name>\n        <TaxID>" ++ i.supplier_tax_id
          ++ "</TaxID>\n    </Supplier>\n    <Buyer>\n        <Name>" ++ i.buyer_name
          ++ "</Name>\n        <TaxID>" ++ i.buyer_tax_id
          ++ "</TaxID>\n    </Buyer>\n    <TotalAmount currency=\"" ++ i.currency
          ++ "\">" ++ decStr 2 i.total_amount ++ "</TotalAmount>\n</Invoice>", ?_⟩
      simp only [generateBasicXml, String.append_assoc]
    · refine ⟨"<?xml version=\"1.0\" encoding=\"UTF-8\"?>\n<Invoice>\n    <InvoiceNumber>"
          ++ i.invoice_number ++ "</InvoiceNumber>\n    <InvoiceDate>",
        "</InvoiceDate>\n    <Supplier>\n        <Name>" ++ i.supplier_name
          ++ "</Name>\n        <TaxID>" ++ i.supplier_tax_id
          ++ "</TaxID>\n    </Supplier>\n    <Buyer>\n        <Name>" ++ i.buyer_name
          ++ "</Name>\n        <TaxID>" ++ i.buyer_tax_id
          ++ "</TaxID>\n    </Buyer>\n    <TotalAmount currency=\"" ++ i.currency
          ++ "\">" ++ decStr 2 i.total_amount ++ "</TotalAmount>\n</Invoice>", ?_⟩
      simp only [generateBasicXml, String.append_assoc]
    · refine ⟨"<?xml version=\"1.0\" encoding=\"UTF-8\"?>\n<Invoice>\n    <InvoiceNumber>"
          ++ i.invoice_number ++ "</InvoiceNumber>\n    <InvoiceDate>"
          ++ i.invoice_date.isoformat ++ "</InvoiceDate>\n    <Supplier>\n        <Name>",
        "</Name>\n        <TaxID>" ++ i.supplier_tax_id
          ++ "</TaxID>\n    </Supplier>\n    <Buyer>\n        <Name>" ++ i.buyer_name
          ++ "</Name>\n        <TaxID>" ++ i.buyer_tax_id
          ++ "</TaxID>\n    </Buyer>\n    <TotalAmount currency=\"" ++ i.currency
          ++ "\">" ++ decStr 2 i.total_amount ++ "</TotalAmount>\n</Invoice>", ?_⟩
      simp only [generateBasicXml, String.append_assoc]
    · refine ⟨"<?xml version=\"1.0\" encoding=\"UTF-8\"?>\n<Invoice>\n    <InvoiceNumber>"
          ++ i.invoice_number ++ "</InvoiceNumber>\n    <InvoiceDate>"
          ++ i.invoice_date.isoformat ++ "</InvoiceDate>\n    <Supplier>\n        <Name>"
          ++ i.supplier_name ++ "</Name>\n        <TaxID>",
        "</TaxID>\n    </Supplier>\n    <Buyer>\n        <Name>" ++ i.buyer_name
          ++ "</Name>\n        <TaxID>" ++ i.buyer_tax_id
          ++ "</TaxID>\n    </Buyer>\n    <TotalAmount currency=\"" ++ i.currency
          ++ "\">" ++ decStr 2 i.total_amount ++ "</TotalAmount>\n</Invoice>", ?_⟩
      simp only [generateBasicXml, String.append_assoc]
    · refine ⟨"<?xml version=\"1.0\" encoding=\"UTF-8\"?>\n<Invoice>\n    <InvoiceNumber>"
          ++ i.invoice_number ++ "</InvoiceNumber>\n    <InvoiceDate>"
          ++ i.invoice_date.isoformat ++ "</InvoiceDate>\n    <Supplier>\n        <Name>"
          ++ i.supplier_name ++ "</Name>\n        <TaxID>" ++ i.supplier_tax_id
          ++ "</TaxID>\n    </Supplier>\n    <Buyer>\n        <Name>",
        "</Name>\n        <TaxID>" ++ i.buyer_tax_id
          ++ "</TaxID>\n    </Buyer>\n    <TotalAmount currency=\"" ++ i.currency
          ++ "\">" ++ decStr 2 i.total_amount ++ "</TotalAmount>\n</Invoice>", ?_⟩
      simp only [generateBasicXml, String.append_assoc]
    · refine ⟨"<?xml version=\"1.0\" encoding=\"UTF-8\"?>\n<Invoice>\n    <InvoiceNumber>"
          ++ i.invoice_number ++ "</InvoiceNumber>\n    <InvoiceDate>"
          ++ i.invoice_date.isoformat ++ "</InvoiceDate>\n    <Supplier>\n        <Name>"
          ++ i.supplier_name ++ "</Name>\n        <TaxID>" ++ i.supplier_tax_id
          ++ "</TaxID>\n    </Supplier>\n    <Buyer>\n        <Name>" ++ i.buyer_name
          ++ "</Name>\n        <TaxID>",
        "</TaxID>\n    </Buyer>\n    <TotalAmount currency=\"" ++ i.currency
          ++ "\">" ++ decStr 2 i.total_amount ++ "</TotalAmount>\n</Invoice>", ?_⟩
      simp only [generateBasicXml, String.append_assoc]
    · have hsplit1 : ("</TaxID>\n    </Buyer>\n    <TotalAmount currency=\"" : String) =
          "</TaxID>\n    </Buyer>\n    " ++ "<TotalAmount currency=\"" := rfl
      have hsplit2 : ("</TotalAmount>\n</Invoice>" : String) =
          "</TotalAmount>" ++ "\n</Invoice>" := rfl
      refine ⟨"<?xml version=\"1.0\" encoding=\"UTF-8\"?>\n<Invoice>\n    <InvoiceNumber>"
          ++ i.invoice_number ++ "</InvoiceNumber>\n    <InvoiceDate>"
          ++ i.invoice_date.isoformat ++ "</InvoiceDate>\n    <Supplier>\n        <Name>"
          ++ i.supplier_name ++ "</Name>\n        <TaxID>" ++ i.supplier_tax_id
          ++ "</TaxID>\n    </Supplier>\n    <Buyer>\n        <Name>" ++ i.buyer_name
          ++ "</Name>\n        <TaxID>" ++ i.buyer_tax_id
          ++ "</TaxID>\n    </Buyer>\n    ",
        "\n</Invoice>", ?_⟩
      rw [generateBasicXml, hsplit1, hsplit2]
      simp only [String.append_assoc]

/-- An invoice carrying a stored XML blob. -/
def invC5a : XRechnungInvoice :=
  { id := 51, invoice_number := "INV-A-001", invoice_date := ⟨2024, 5, 1⟩,
    due_date := none, supplier_name := "Test Supplier", supplier_tax_id := "DE1",
    buyer_name := "Test Buyer", buyer_tax_id := "DE2", total_amount := 119,
    tax_amount := 19, net_amount := some 100, currency := "EUR",
    xml_content := "<stored>raw</stored>", created_at := 0 }

/-- An invoice with an empty xml_content, exercising the synthesis branch. -/
def invC5b : XRechnungInvoice :=
  { id := 52, invoice_number := "INV-B-001", invoice_date := ⟨2024, 5, 2⟩,
    due_date := none, supplier_name := "Test Supplier", supplier_tax_id := "DE1",
    buyer_name := "Test Buyer", buyer_tax_id := "DE2", total_amount := 119,
    tax_amount := 19, net_amount := some 100, currency := "EUR",
    xml_content := "", created_at := 0 }

/-- C5 witness: a stored blob is returned verbatim, and an empty blob yields a
synthesized body containing the literal invoice number. -/
theorem c5_xml_export_witness :
    invC5a.xml_content = "<stored>raw</stored>" ∧
      (XRechnungInvoiceApiView.invoice_xml_export invC5a).body = "<stored>raw</stored>" ∧
      invC5b.xml_content = "" ∧
      containsSub (XRechnungInvoiceApiView.invoice_xml_export invC5b).body "INV-B-001" := by
  have h1 := (c5_xml_export invC5a).1 (by simp [invC5a])
  have h2 := ((c5_xml_export invC5b).2 rfl).2.2.1
  refine ⟨rfl, ?_, rfl, ?_⟩
  · rw [h1]
    rfl
  · rw [show invC5b.invoice_number = "INV-B-001" from rfl] at h2
    exact h2

/-- The empty needle occurs in every character list. -/
theorem isSubChunk_nil (l : List Char) : isSubChunk [] l = true := by
  cases l with
  | nil => rfl
  | cons c t => simp [isSubChunk, List.isPrefixOf]

/-- Every string contains the empty string case-insensitively. -/
theorem icontains_empty (h : String) : icontainsB h "" = true := by
  unfold icontainsB
  rw [show (lowerStr "").data = [] from rfl]
  exact isSubChunk_nil _

/-- The view's queryset pipeline coincides with one filter over the ordered
rows, using the predicate written from the specification wording. -/
theorem get_queryset_eq (db : List XRechnungInvoice) (sup : Option String)
    (sd ed : Option Date) :
    XRechnungInvoiceListView.get_queryset db sup sd ed =
      (List.insertionSort invoiceOrder db).filter (specInvoiceMatch sup sd ed) := by
  unfold XRechnungInvoiceListView.get_queryset specInvoiceMatch
  cases sup with
  | none =>
    cases sd <;> cases ed <;>
      simp [List.filter_filter, Bool.and_comm, Bool.and_left_comm, Bool.and_assoc]
  | some s =>
    by_cases hs : s = ""
    · subst hs
      cases sd <;> cases ed <;>
        simp [List.filter_filter, icontains_empty, Bool.and_comm, Bool.and_left_comm,
          Bool.and_assoc]
    · cases sd <;> cases ed <;>
        simp [hs, List.filter_filter, Bool.and_comm, Bool.and_left_comm, Bool.and_assoc]

/-- C7: for every combination of the optional supplier, start_date and
end_date parameters, the list queryset holds exactly the stored invoices
matching the case-insensitive supplier substring and the inclusive date
bounds (an absent parameter constrains nothing), and it is ordered by
invoice date descending with creation time descending as tie-break. -/
theorem c7_list_filter_order (db : List XRechnungInvoice) (sup : Option String)
    (sd ed : Option Date) :
    (XRechnungInvoiceListView.get_queryset db sup sd ed).Perm
        (db.filter (specInvoiceMatch sup sd ed)) ∧
      List.Sorted invoiceOrder (XRechnungInvoiceListView.get_queryset db sup sd ed) := by
  constructor
  · rw [get_queryset_eq]
    exact List.Perm.filter _ (List.perm_insertionSort invoiceOrder db)
  · rw [get_queryset_eq]
    exact List.Pairwise.filter _ (List.sorted_insertionSort invoiceOrder db)

/-- C8 counterexample: with PAGINATION_SIZE overridden to 50 in the Django
settings the configuration resolves to 50, yet the list view's page size is
the hard-coded constant 20 — the configured value is not used. -/
theorem c8_counterexample_config_not_used :
    XRechnungConfig.pagination_size ⟨some 50, none⟩ = 50 ∧
      XRechnungInvoiceListView.paginate_by = 20 ∧
      XRechnungInvoiceListView.paginate_by ≠
        XRechnungConfig.pagination_size ⟨some 50, none⟩ := by
  refine ⟨rfl, rfl, by decide⟩

/-- C8 amended: the invoice list page is paginated at the fixed page size 20;
the configuration layer does resolve PAGINATION_SIZE by merging defaults,
app settings and the project manifest with later sources winning (default
20), but the list view never consults it, so overrides do not change the
page size. -/
theorem c8_pagination_resolution :
    XRechnungInvoiceListView.paginate_by = 20 ∧
      XRechnungConfig.pagination_size ⟨none, none⟩ = 20 ∧
      (∀ ds v, XRechnungConfig.pagination_size ⟨ds, some v⟩ = v) ∧
      (∀ v, XRechnungConfig.pagination_size ⟨some v, none⟩ = v) :=
  ⟨rfl, rfl, fun _ _ => rfl, fun _ => rfl⟩

/-- A persisted invoice whose number a later update rewrites. -/
def invC9 : XRechnungInvoice :=
  { id := 9, invoice_number := "INV-TEST-001", invoice_date := ⟨2024, 6, 1⟩,
    due_date := none, supplier_name := "Test Supplier", supplier_tax_id := "",
    buyer_name := "Test Buyer", buyer_tax_id := "", total_amount := 119,
    tax_amount := 19, net_amount := some 100, currency := "EUR", xml_content := "",
    created_at := 0 }

/-- C9 counterexample: assigning a new invoice_number to a persisted invoice
and saving persists the new number — the model layer enforces no
immutability. -/
theorem c9_counterexample_number_mutable :
    invC9.invoice_number = "INV-TEST-001" ∧
      (XRechnungInvoice.save
          { invC9 with invoice_number := "INV-CHANGED" }).invoice_number
        = "INV-CHANGED" := by
  refine ⟨rfl, ?_⟩
  rw [save_invoice_number]

/-- C9 amended: invoice_number is immutable only through the admin edit form —
get_readonly_fields adds it to the readonly list exactly when an existing
object is edited — while a direct model update saves any reassigned
invoice_number unchecked. -/
theorem c9_admin_readonly_only (i : XRechnungInvoice) (n : String) :
    "invoice_number" ∈ XRechnungInvoiceAdmin.get_readonly_fields true ∧
      "invoice_number" ∉ XRechnungInvoiceAdmin.get_readonly_fields false ∧
      (XRechnungInvoice.save { i with invoice_number := n }).invoice_number = n := by
  refine ⟨?_, ?_, ?_⟩
  · simp [XRechnungInvoiceAdmin.get_readonly_fields, XRechnungInvoiceAdmin.readonly_fields]
  · simp [XRechnungInvoiceAdmin.get_readonly_fields, XRechnungInvoiceAdmin.readonly_fields]
  · rw [save_invoice_number]

/-- C10: whenever net_amount is null at read time the JSON detail projection
carries the literal string "None" under net_amount (Python str applied to
None), a null line_total likewise becomes the string "None", while a
missing due_date becomes JSON null; and the null net_amount is reachable
because the save derivation is skipped when tax_amount is zero. -/
theorem c10_json_none_strings (i : XRechnungInvoice) (items : List XRechnungLineItem)
    (it : XRechnungLineItem) (hnet : i.net_amount = none) (hdue : i.due_date = none)
    (hlt : it.line_total = none) :
    (XRechnungInvoiceApiView.invoice_detail_api i items).getField "net_amount"
        = some (.str "None") ∧
      (XRechnungInvoiceApiView.invoice_detail_api i items).getField "due_date"
        = some .null ∧
      (XRechnungInvoiceApiView.lineItemJson it).getField "line_total"
        = some (.str "None") ∧
      (i.tax_amount = 0 → (XRechnungInvoice.save i).net_amount = none) := by
  refine ⟨?_, ?_, ?_, ?_⟩
  · simp only [XRechnungInvoiceApiView.invoice_detail_api, hnet]
    rfl
  · simp only [XRechnungInvoiceApiView.invoice_detail_api, hdue]
    rfl
  · simp only [XRechnungInvoiceApiView.lineItemJson, hlt]
    rfl
  · intro htax
    unfold XRechnungInvoice.save
    rw [if_neg (by simp [htax])]
    exact hnet

/-- A persisted invoice with zero tax, hence null net_amount, and no due
date. -/
def invC10 : XRechnungInvoice :=
  { id := 10, invoice_number := "INV-2024-020", invoice_date := ⟨2024, 7, 1⟩,
    due_date := none, supplier_name := "Test Supplier", supplier_tax_id := "",
    buyer_name := "Test Buyer", buyer_tax_id := "", total_amount := 119,
    tax_amount := 0, net_amount := none, currency := "EUR", xml_content := "",
    created_at := 0 }

/-- A line item whose line_total is null. -/
def itemC10 : XRechnungLineItem :=
  { invoice := 10, position := 1, description := "Test Product", quantity := 0,
    unit_price := 25, line_total := none, tax_rate := 19 }

/-- C10 witness: the concrete projection carries the string "None" for
net_amount and line_total, JSON null for due_date, and saving the zero-tax
invoice leaves net_amount null. -/
theorem c10_json_none_strings_witness :
    (XRechnungInvoiceApiView.invoice_detail_api invC10 [itemC10]).getField "net_amount"
        = some (.str "None") ∧
      (XRechnungInvoiceApiView.invoice_detail_api invC10 [itemC10]).getField "due_date"
        = some .null ∧
      (XRechnungInvoiceApiView.lineItemJson itemC10).getField "line_total"
        = some (.str "None") ∧
      (XRechnungInvoice.save invC10).net_amount = none := by
  have h := c10_json_none_strings invC10 [itemC10] itemC10 rfl rfl rfl
  exact ⟨h.1, h.2.1, h.2.2.1, h.2.2.2 rfl⟩
